import Mathlib

/- Shallow embedding of the ae-server backend (server.py and
hurricane_data/creative_geo.py).  Python floats are modelled as rationals,
Python dict lookups as `Option`-valued functions, optional dict fields as
`Option` fields, and Python dicts used as ordered key/value maps as
association lists in insertion order.  Falsiness of Python values under
`or` (empty string, zero, `None`) is modelled explicitly by the `pyOr*`
helpers. -/

/-- Python `a or b` on strings: the empty string is falsy. -/
def pyOrS (a b : String) : String := if a = "" then b else a

/-- Python `x or d` where `x` is an optional string (`None` and `""` falsy). -/
def pyOrOptS (o : Option String) (d : String) : String :=
  match o with
  | none => d
  | some s => if s = "" then d else s

/-- Python `x or d` where `x` is an optional number (`None` and `0` falsy). -/
def pyOrQ (o : Option ℚ) (d : ℚ) : ℚ :=
  match o with
  | none => d
  | some x => if x = 0 then d else x

/-- Drop leading whitespace characters. -/
def pyStripLeft : List Char → List Char
  | [] => []
  | c :: cs => if c.isWhitespace then pyStripLeft cs else c :: cs

/-- Python `str.strip()`: whitespace removed from both ends. -/
def pyStrip (s : String) : String :=
  String.mk (pyStripLeft (pyStripLeft s.data).reverse).reverse

/-- Python `str.capitalize()`: first character upper-cased, rest lower-cased. -/
def pyCapitalize (s : String) : String :=
  match s.data with
  | [] => ""
  | c :: cs => String.mk (c.toUpper :: cs.map Char.toLower)

/-- The optional `delta` sub-record of a beat: `{hype, press, virality}`,
each field optional (read with `.get(key, 0)` in the source). -/
structure Delta where
  hype : Option ℚ
  press : Option ℚ
  virality : Option ℚ
deriving DecidableEq, Repr

/-- One narrative beat of a track: `{event, delta?}` (only the fields the
code reads are modelled; `t` is never read by the generators). -/
structure Beat where
  event : Option String
  delta : Option Delta
deriving DecidableEq, Repr

/-- A creative track JSON record: `{artist, release, following, beats}`,
every field optional (the code reads each with `.get`). -/
structure Track where
  artist : Option String
  release : Option String
  following : Option (List (String × ℚ))
  beats : Option (List Beat)
deriving DecidableEq, Repr

/-- The `proximity` block emitted inside each point feature. -/
structure Proximity where
  name : String
  country : String
  lat : ℚ
  lon : ℚ
  distance : ℚ
deriving DecidableEq, Repr

/-- One GeoJSON point feature as emitted by the generators (properties
flattened; `event` is `Option` because `build_creative_points` emits the
raw, possibly absent, beat event). -/
structure Feature where
  artist : Option String
  release : Option String
  event : Option String
  hype : ℚ
  press : ℚ
  virality : ℚ
  proximity : Proximity
  timestamp : ℕ
  coordinates : ℚ × ℚ
deriving DecidableEq, Repr

namespace Server

/-- `REGION_ANCHORS` of server.py, as the dict `.get` lookup. -/
def REGION_ANCHORS (r : String) : Option (ℚ × ℚ) :=
  if r = "gallery" then some (-73.9857, 40.7580)
  else if r = "tiktok" then some (139.6917, 35.6895)
  else if r = "mainstream" then some (2.3522, 48.8566)
  else if r = "collectors" then some (-0.1276, 51.5072)
  else if r = "niche" then some (18.4233, -33.9180)
  else none

/-- `EVENT_TO_REGION.get` of server.py.  The dict maps `"drop"` to `None`
and `.get` returns `None` on unmapped keys; both cases collapse to `none`,
which the caller replaces by the home region. -/
def EVENT_TO_REGION (ev : String) : Option String :=
  if ev = "teaser" then some "niche"
  else if ev = "collab_reveal" then some "mainstream"
  else if ev = "critic_preview" then some "gallery"
  else if ev = "record_sale" then some "collectors"
  else if ev = "controversy" then some "mainstream"
  else if ev = "award" then some "gallery"
  else if ev = "platform_boost" then some "tiktok"
  else if ev = "supply_extension" then some "collectors"
  else none

end Server

/-- Python `max(items, key=value)` over an association list: keeps the
current best and replaces it only on a strictly greater value, hence the
FIRST entry of maximal value wins. -/
def pyMaxPair (x : String × ℚ) (xs : List (String × ℚ)) : String × ℚ :=
  xs.foldl (fun best y => if y.2 > best.2 then y else best) x

/-- `_dominant_region` of server.py: `None` on an empty map, else the first
key of maximal weight. -/
def _dominant_region (following : List (String × ℚ)) : Option String :=
  match following with
  | [] => none
  | x :: xs => some (pyMaxPair x xs).1

/-- `_lerp` of server.py. -/
def _lerp (a b t : ℚ) : ℚ := a + (b - a) * t

/-- `_interpolate` of server.py: points at `t = i/steps` for `i = 1..steps`. -/
def _interpolate (lon1 lat1 lon2 lat2 : ℚ) (steps : ℕ) : List (ℚ × ℚ) :=
  (List.range steps).map fun i : ℕ =>
    (_lerp lon1 lon2 (((i : ℚ) + 1) / (steps : ℚ)),
     _lerp lat1 lat2 (((i : ℚ) + 1) / (steps : ℚ)))

/-- The feature record server.py appends for one interpolated point. -/
def mkServerFeature (track : Track) (ev targetName : String) (tx ty : ℚ)
    (beat : Beat) (ts : ℕ) (p : ℚ × ℚ) : Feature :=
  let delta := beat.delta.getD ⟨none, none, none⟩
  { artist := track.artist
    release := track.release
    event := some ev
    hype := delta.hype.getD 0
    press := delta.press.getD 0
    virality := delta.virality.getD 0
    proximity := { name := pyCapitalize targetName, country := "", lat := ty,
                   lon := tx, distance := 0 }
    timestamp := ts
    coordinates := p }

/-- The beat loop of `creative_track_to_points`, with the mutable cursor
`(cur_lon, cur_lat)` and timestamp `ts` passed explicitly. -/
def creative_points_loop (track : Track) (home : String) :
    List Beat → ℚ → ℚ → ℕ → List Feature
  | [], _, _, _ => []
  | beat :: rest, curLon, curLat, ts =>
    let ev := pyStrip (beat.event.getD "")
    let targetRegion := (Server.EVENT_TO_REGION ev).getD home
    let t := (Server.REGION_ANCHORS targetRegion).getD (curLon, curLat)
    let steps := if ev = "teaser" ∨ ev = "critic_preview" then 4 else 8
    let pts := _interpolate curLon curLat t.1 t.2 steps
    (pts.enum.map fun ip =>
      mkServerFeature track ev (pyOrS targetRegion home) t.1 t.2 beat
        (ts + 200 * ip.1) ip.2)
      ++ creative_points_loop track home rest t.1 t.2 (ts + 200 * pts.length)

/-- `creative_track_to_points` of server.py. -/
def creative_track_to_points (track : Track) : List Feature :=
  let beats := track.beats.getD []
  let following := track.following.getD []
  let home := pyOrOptS (_dominant_region following) "mainstream"
  let h := (Server.REGION_ANCHORS home).getD
    ((Server.REGION_ANCHORS "mainstream").getD (0, 0))
  creative_points_loop track home beats (h.1 - 10) h.2 0

namespace Geo

/-- `REGION_ANCHORS` of creative_geo.py, as the dict `.get` lookup.  Note
the coordinates of `"mainstream"` and `"gallery"` are swapped relative to
server.py. -/
def REGION_ANCHORS (r : String) : Option (ℚ × ℚ) :=
  if r = "mainstream" then some (-73.9857, 40.7580)
  else if r = "tiktok" then some (139.6917, 35.6895)
  else if r = "gallery" then some (2.3522, 48.8566)
  else if r = "collectors" then some (-0.1276, 51.5072)
  else if r = "niche" then some (18.4233, -33.9180)
  else none

/-- `EVENT_TO_REGION.get` of creative_geo.py (same table as server.py). -/
def EVENT_TO_REGION (ev : String) : Option String :=
  if ev = "teaser" then some "niche"
  else if ev = "collab_reveal" then some "mainstream"
  else if ev = "critic_preview" then some "gallery"
  else if ev = "record_sale" then some "collectors"
  else if ev = "controversy" then some "mainstream"
  else if ev = "award" then some "gallery"
  else if ev = "platform_boost" then some "tiktok"
  else if ev = "supply_extension" then some "collectors"
  else none

end Geo

/-- `dominant_region` of creative_geo.py (same body as `_dominant_region`). -/
def dominant_region (following : List (String × ℚ)) : Option String :=
  match following with
  | [] => none
  | x :: xs => some (pyMaxPair x xs).1

/-- `lerp` of creative_geo.py. -/
def lerp (a b t : ℚ) : ℚ := a + (b - a) * t

/-- `interpolate` of creative_geo.py (same points as `_interpolate`). -/
def interpolate (lon1 lat1 lon2 lat2 : ℚ) (steps : ℕ) : List (ℚ × ℚ) :=
  ((List.range steps).map fun i : ℕ => ((i : ℚ) + 1) / (steps : ℚ)).map fun t =>
    (lerp lon1 lon2 t, lerp lat1 lat2 t)

/-- The feature record creative_geo.py appends for one interpolated point:
the raw (optional) event is emitted and the proximity name is the target
region without the `or home` guard. -/
def mkGeoFeature (track : Track) (ev : Option String) (targetRegion : String)
    (tx ty : ℚ) (beat : Beat) (ts : ℕ) (p : ℚ × ℚ) : Feature :=
  let delta := beat.delta.getD ⟨none, none, none⟩
  { artist := track.artist
    release := track.release
    event := ev
    hype := delta.hype.getD 0
    press := delta.press.getD 0
    virality := delta.virality.getD 0
    proximity := { name := pyCapitalize targetRegion, country := "", lat := ty,
                   lon := tx, distance := 0 }
    timestamp := ts
    coordinates := p }

/-- The beat loop of `build_creative_points`. -/
def build_points_loop (track : Track) (home : String) :
    List Beat → ℚ → ℚ → ℕ → List Feature
  | [], _, _, _ => []
  | beat :: rest, curLon, curLat, ts =>
    let ev := beat.event
    let targetRegion := ((ev.bind Geo.EVENT_TO_REGION)).getD home
    let t := (Geo.REGION_ANCHORS targetRegion).getD (curLon, curLat)
    let steps := if ev = some "teaser" ∨ ev = some "critic_preview" then 4 else 8
    let pts := interpolate curLon curLat t.1 t.2 steps
    (pts.enum.map fun ip =>
      mkGeoFeature track ev targetRegion t.1 t.2 beat (ts + 200 * ip.1) ip.2)
      ++ build_points_loop track home rest t.1 t.2 (ts + 200 * pts.length)

/-- `build_creative_points` of creative_geo.py.  The wall-clock start of the
run, `int(time.time() * 1000)`, is the explicit parameter `t0`. -/
def build_creative_points (track : Track) (t0 : ℕ) : List Feature :=
  let beats := track.beats.getD []
  let following := track.following.getD []
  let home := pyOrOptS (dominant_region following) "mainstream"
  let h := (Geo.REGION_ANCHORS home).getD
    ((Geo.REGION_ANCHORS "mainstream").getD (0, 0))
  build_points_loop track home beats (h.1 - 10) h.2 t0

/-- The in-memory market snapshot read by `_apply_market_influence`:
`bids`/`asks` are the lengths of `bid_list`/`ask_list` (hence naturals) and
`price` is `market.get("price")` when it is a number. -/
structure MarketSnap where
  bids : ℕ
  asks : ℕ
  price : Option ℚ
deriving DecidableEq, Repr

/-- The shared `_release_state` record. -/
structure ReleaseState where
  artist : String
  release : String
  event : String
  hype : ℚ
  press : ℚ
  virality : ℚ
  listing_pressure : ℚ
  following : List (String × ℚ)
  sold : ℕ
  editions : ℕ
  floor : Option ℚ
  prevPrice : Option ℚ
deriving DecidableEq, Repr

/-- The initial `_release_state` dict of server.py. -/
def initial_release_state : ReleaseState :=
  { artist := "—", release := "—", event := "", hype := 0, press := 0,
    virality := 0, listing_pressure := 0.10,
    following := [("mainstream", 0.3), ("tiktok", 0.3), ("gallery", 0.2),
                  ("collectors", 0.15), ("niche", 0.05)],
    sold := 0, editions := 0, floor := none, prevPrice := none }

/-- `_apply_decay` of server.py. -/
def _apply_decay (rs : ReleaseState) (dt : ℚ) : ReleaseState :=
  { rs with
    hype := max 0 (rs.hype - 0.12 * dt)
    press := max 0 (rs.press - 0.08 * dt)
    virality := max 0 (rs.virality - 0.0015 * dt)
    listing_pressure := max 0.02 (rs.listing_pressure - 0.004 * dt) }

/-- `_apply_market_influence` of server.py.  `market = none` models the
global `market` not being a dict, in which case the body is skipped.
`rs.get("floor") or price` treats both `None` and `0.0` as falsy
(`pyOrQ`). -/
def _apply_market_influence (rs : ReleaseState) (market : Option MarketSnap) :
    ReleaseState :=
  match market with
  | none => rs
  | some m =>
    let bids : ℚ := m.bids
    let asks : ℚ := m.asks
    let bid_pressure : ℚ :=
      if m.asks ≠ 0 then bids / asks else if m.bids ≠ 0 then 2.0 else 0.0
    let rs1 := { rs with
      hype := rs.hype + min 2.0 (0.15 * bids)
      listing_pressure := min 0.6 (rs.listing_pressure + 0.02 * bid_pressure) }
    match m.price with
    | none => rs1
    | some price =>
      match rs1.prevPrice with
      | some pp =>
        let dp := price - pp
        let fl := pyOrQ rs1.floor price
        { rs1 with
          floor := some (if dp > 0 then fl + dp * 0.4 else fl + dp * 0.2)
          prevPrice := some price }
      | none => { rs1 with prevPrice := some price }

/-- `_fire_micro_event` of server.py: `roll` is the branching
`random.random()` draw and `r1` the second draw used inside the taken
branch.  `rs.get("floor") or 100` is `pyOrQ`. -/
def _fire_micro_event (rs : ReleaseState) (roll r1 : ℚ) : ReleaseState :=
  if roll < 0.20 then
    { rs with event := "platform_boost",
              virality := min 1.0 (rs.virality + 0.03 + r1 * 0.04) }
  else if roll < 0.38 then
    { rs with event := "collab_reveal", hype := rs.hype + 6 + r1 * 8 }
  else if roll < 0.54 then
    { rs with event := "critic_preview", press := rs.press + 6 + r1 * 6 }
  else if roll < 0.64 then
    { rs with event := "record_sale",
              listing_pressure := min 0.6 (rs.listing_pressure + 0.05),
              floor := some (pyOrQ rs.floor 100 + (4 + r1 * 12)) }
  else if roll < 0.82 then
    { rs with event := "teaser", hype := rs.hype + 3 + r1 * 4 }
  else
    { rs with event := "" }

/-- One body of the `_creative_daemon` while-loop: decay, then market
influence, then micro-event, all under the lock. -/
def ticker_step (rs : ReleaseState) (dt : ℚ) (market : Option MarketSnap)
    (roll r1 : ℚ) : ReleaseState :=
  _fire_micro_event (_apply_market_influence (_apply_decay rs dt) market) roll r1

/-- One persisted row of the SQLite `chat` table
`chat(id, timestamp, user, chatString, entityType)`. -/
structure ChatRow where
  id : ℕ
  timestamp : String
  user : String
  chatString : String
  entityType : String
deriving DecidableEq, Repr

/-- The static denylist of `post_chat`. -/
def blacklist : List String :=
  ["testblacklist", "nigger", "nigga", "nigg", "fag", "faggot", "bitch",
   "whore", "retard", "cunt", "paki", "kike", "coon", "gook"]

/-- Python `word in s` substring test, on the underlying character lists. -/
def pyContains (s word : String) : Prop := word.data <:+: s.data

instance (s word : String) : Decidable (pyContains s word) :=
  List.decidableInfix word.data s.data

/-- The `block` flag computed by the denylist loop of `post_chat`. -/
def chat_blocked (user chat_string : String) : Prop :=
  ∃ w ∈ blacklist, pyContains chat_string w ∨ pyContains user w

instance (user chat_string : String) : Decidable (chat_blocked user chat_string) :=
  List.decidableBEx _ blacklist

/-- `post_chat` of server.py, as a function from the form fields and the
current `chat` table to the response string and the new table.  The model
gives the inserted row the next free id (SQLite rowid) and an opaque
timestamp chosen by the database default. -/
def post_chat (user chat_string : String) (nextId : ℕ) (nowTs : String)
    (table : List ChatRow) : String × List ChatRow :=
  if chat_blocked user chat_string then
    ("you can\x27t say that", table)
  else
    ("chat", table ++ [{ id := nextId, timestamp := nowTs, user := user,
                         chatString := chat_string, entityType := "person" }])

/-- Character class `[a-zA-Z0-9_.+-]` of the email regex. -/
def isAChar (c : Char) : Bool :=
  c.isAlpha || c.isDigit || c = '_' || c = '.' || c = '+' || c = '-'

/-- Character class `[a-zA-Z0-9-]` of the email regex. -/
def isBChar (c : Char) : Bool :=
  c.isAlpha || c.isDigit || c = '-'

/-- Character class `[a-zA-Z0-9-.]` of the email regex. -/
def isCChar (c : Char) : Bool :=
  c.isAlpha || c.isDigit || c = '-' || c = '.'

/-- Matches `\.[a-zA-Z0-9-.]+` possibly preceded by more `[a-zA-Z0-9-]`
characters (the continuation of `[a-zA-Z0-9-]+\.[a-zA-Z0-9-.]+` after its
first mandatory class-B character); the regex is unanchored, so `C+` only
needs one class-C character. -/
def matchDotTail : List Char → Bool
  | [] => false
  | x :: rest =>
    (x = '.' && (match rest with | [] => false | c :: _ => isCChar c))
      || (isBChar x && matchDotTail rest)

/-- Matches `[a-zA-Z0-9-]+\.[a-zA-Z0-9-.]+` at the head of the list. -/
def matchDomain : List Char → Bool
  | [] => false
  | b :: rest => isBChar b && matchDotTail rest

/-- Matches `@...` possibly preceded by more class-A characters (the
continuation of `[a-zA-Z0-9_.+-]+@...` after its first mandatory class-A
character). -/
def matchAtTail : List Char → Bool
  | [] => false
  | x :: rest => (x = '@' && matchDomain rest) || (isAChar x && matchAtTail rest)

/-- `re.search` of `[a-zA-Z0-9_.+-]+@[a-zA-Z0-9-]+\.[a-zA-Z0-9-.]+`: true
iff a match of the (unanchored) pattern starts at some position. -/
def email_search : List Char → Bool
  | [] => false
  | a :: rest => (isAChar a && matchAtTail rest) || email_search rest

/-- `email` handler of server.py: validate with `re.search`, insert on
success. -/
def email_handler (em : String) (table : List String) :
    String × List String :=
  if email_search em.data then
    ("valid email", table ++ [em])
  else
    ("invalid email", table)

/-- One message of the `GET /chat` JSON response (`row[0]`, the id, is not
echoed; `row[2]` is renamed `agent` and `row[3]` renamed `chat`). -/
structure ChatMsg where
  timestamp : String
  agent : String
  chat : String
  entityType : String
deriving DecidableEq, Repr

/-- Projection of a chat row onto the response message shape. -/
def rowToMsg (r : ChatRow) : ChatMsg :=
  { timestamp := r.timestamp, agent := r.user, chat := r.chatString,
    entityType := r.entityType }

/-- `ORDER BY id DESC` comparison. -/
def idGe (a b : ChatRow) : Prop := b.id ≤ a.id

/-- `ORDER BY id ASC` comparison. -/
def idLe (a b : ChatRow) : Prop := a.id ≤ b.id

instance : DecidableRel idGe := fun a b => Nat.decLe b.id a.id

instance : DecidableRel idLe := fun a b => Nat.decLe a.id b.id

instance : IsTotal ChatRow idGe := ⟨fun a b => Nat.le_total b.id a.id⟩

instance : IsTrans ChatRow idGe := ⟨fun _ _ _ h1 h2 => Nat.le_trans h2 h1⟩

instance : IsTotal ChatRow idLe := ⟨fun a b => Nat.le_total a.id b.id⟩

instance : IsTrans ChatRow idLe := ⟨fun _ _ _ h1 h2 => Nat.le_trans h1 h2⟩

/-- The row selection of the `GET /chat` query:
`SELECT * FROM (SELECT * FROM chat ORDER BY id DESC LIMIT 20) ORDER BY id ASC`. -/
def get_chat_rows (table : List ChatRow) : List ChatRow :=
  List.insertionSort idLe (List.take 20 (List.insertionSort idGe table))

/-- `get_chat` of server.py: the selected rows projected onto the response
message shape. -/
def get_chat (table : List ChatRow) : List ChatMsg :=
  (get_chat_rows table).map rowToMsg

/-- The JSON body of the `GET /release_state` response. -/
structure StateResp where
  artist : Option String
  release : Option String
  event : String
  hype : ℚ
  press : ℚ
  virality : ℚ
  following : List (String × ℚ)
  listing_pressure : ℚ
deriving DecidableEq, Repr

/-- `get_release_state` of server.py: a pure function of the parsed seed
file (`none` = file missing, answered with `{}`), with the ticker-mutated
shared state passed in as `shared` to make its (non-)use explicit — the
handler body never reads it. -/
def get_release_state (file : Option Track) (_shared : ReleaseState) :
    Option StateResp :=
  match file with
  | none => none
  | some track =>
    let last : Beat :=
      match track.beats with
      | some (b :: bs) => (b :: bs).getLast (by simp)
      | _ => { event := none, delta := none }
    let delta : Delta := last.delta.getD ⟨none, none, none⟩
    some
      { artist := track.artist
        release := track.release
        event := last.event.getD ""
        hype := delta.hype.getD 0
        press := delta.press.getD 0
        virality := delta.virality.getD 0
        following := track.following.getD
          [("mainstream", 0.4), ("tiktok", 0.3), ("gallery", 0.1),
           ("collectors", 0.1), ("niche", 0.1)]
        listing_pressure := 0.15 }

/-- C7: for every track whose list of beats is empty or absent, both copies
of the geo-point generator return the empty list of point features. -/
theorem C7_empty_beats_empty_output (track : Track) (t0 : ℕ)
    (h : track.beats = none ∨ track.beats = some []) :
    creative_track_to_points track = [] ∧ build_creative_points track t0 = [] := by
  rcases h with h | h <;>
    simp [creative_track_to_points, build_creative_points, h,
      creative_points_loop, build_points_loop]

theorem C7_empty_beats_empty_output_witness :
    ((Track.mk none none none none).beats = none ∨
      (Track.mk none none none none).beats = some []) ∧
    (creative_track_to_points (Track.mk none none none none) = [] ∧
      build_creative_points (Track.mk none none none none) 0 = []) :=
  ⟨Or.inl rfl, C7_empty_beats_empty_output (Track.mk none none none none) 0 (Or.inl rfl)⟩

/-- C9: interpolating from a point to itself in `n ≥ 1` steps yields `n`
copies of that point, in both copies of the interpolation routine. -/
theorem C9_interpolate_constant (lon lat : ℚ) (n : ℕ) (h : 1 ≤ n) :
    _interpolate lon lat lon lat n = List.replicate n (lon, lat) ∧
      interpolate lon lat lon lat n = List.replicate n (lon, lat) := by
  constructor <;>
  · simp only [_interpolate, interpolate, List.map_map]
    rw [List.eq_replicate_iff]
    refine ⟨by rw [List.length_map, List.length_range], ?_⟩
    intro b hb
    simp only [List.mem_map, List.mem_range, Function.comp] at hb
    obtain ⟨i, _, rfl⟩ := hb
    simp [_lerp, lerp]

theorem C9_interpolate_constant_witness :
    1 ≤ 3 ∧
      (_interpolate 5 7 5 7 3 = List.replicate 3 (5, 7) ∧
        interpolate 5 7 5 7 3 = List.replicate 3 (5, 7)) :=
  ⟨by decide, C9_interpolate_constant 5 7 3 (by decide)⟩

/-- C10: the `GET /release_state` response depends only on the parsed seed
file and not on the ticker-mutated shared release state, and whenever the
file exists the reported `listing_pressure` is the constant 0.15. -/
theorem C10_release_state_independent (file : Option Track) (s1 s2 : ReleaseState) :
    get_release_state file s1 = get_release_state file s2 ∧
      ∀ track : Track, ∃ r : StateResp,
        get_release_state (some track) s1 = some r ∧ r.listing_pressure = 0.15 :=
  ⟨rfl, fun _ => ⟨_, rfl, rfl⟩⟩

/-- C3: a `POST /userchat` request with a denylisted substring in the
message or the username is answered with the rejection string and leaves
the chat table unchanged; a clean request appends exactly one row. -/
theorem C3_chat_denylist (user chat_string : String) (nextId : ℕ)
    (nowTs : String) (table : List ChatRow) :
    (chat_blocked user chat_string →
      post_chat user chat_string nextId nowTs table = ("you can\x27t say that", table)) ∧
    (¬ chat_blocked user chat_string →
      post_chat user chat_string nextId nowTs table =
        ("chat", table ++ [{ id := nextId, timestamp := nowTs, user := user,
                             chatString := chat_string, entityType := "person" }])) := by
  constructor <;> intro h <;> simp [post_chat, h]

theorem C3_chat_denylist_witness :
    (chat_blocked "bob" "a testblacklist b" →
      post_chat "bob" "a testblacklist b" 1 "t0" [] = ("you can\x27t say that", [])) ∧
    (¬ chat_blocked "bob" "hello" →
      post_chat "bob" "hello" 1 "t0" [] =
        ("chat", [{ id := 1, timestamp := "t0", user := "bob",
                    chatString := "hello", entityType := "person" }])) ∧
    chat_blocked "bob" "a testblacklist b" ∧ ¬ chat_blocked "bob" "hello" :=
  ⟨(C3_chat_denylist "bob" "a testblacklist b" 1 "t0" []).1,
   (C3_chat_denylist "bob" "hello" 1 "t0" []).2,
   by decide, by decide⟩

/-- C6: a `POST /email` request whose email string contains no match of the
pattern `[a-zA-Z0-9_.+-]+@[a-zA-Z0-9-]+\.[a-zA-Z0-9-.]+` (the semantics of
the `re.search` call) is answered with the string `invalid email` and
inserts nothing into the mail table. -/
theorem C6_email_rejected (em : String) (table : List String)
    (h : email_search em.data = false) :
    email_handler em table = ("invalid email", table) := by
  simp [email_handler, h]

theorem C6_email_rejected_witness :
    email_search "not-an-email".data = false ∧
      email_handler "not-an-email" ["x@y.zz"] = ("invalid email", ["x@y.zz"]) :=
  ⟨by decide, C6_email_rejected "not-an-email" ["x@y.zz"] (by decide)⟩

/-- After `_apply_decay` the clamped fields sit above their clamps. -/
theorem apply_decay_bounds (rs : ReleaseState) (dt : ℚ) :
    0 ≤ (_apply_decay rs dt).hype ∧ 0 ≤ (_apply_decay rs dt).press ∧
      0.02 ≤ (_apply_decay rs dt).listing_pressure := by
  refine ⟨?_, ?_, ?_⟩ <;> simp [_apply_decay]

/-- `_apply_market_influence` preserves the lower bounds on hype, press and
listing pressure. -/
theorem apply_market_bounds (rs : ReleaseState) (m : Option MarketSnap)
    (hh : 0 ≤ rs.hype) (hp : 0 ≤ rs.press) (hl : 0.02 ≤ rs.listing_pressure) :
    0 ≤ (_apply_market_influence rs m).hype ∧
      0 ≤ (_apply_market_influence rs m).press ∧
      0.02 ≤ (_apply_market_influence rs m).listing_pressure := by
  cases m with
  | none => exact ⟨hh, hp, hl⟩
  | some ms =>
    have hdiv : (0 : ℚ) ≤ (ms.bids : ℚ) / (ms.asks : ℚ) := by positivity
    have h1 : 0 ≤ rs.hype + min 2.0 (0.15 * (ms.bids : ℚ)) := by
      have : (0 : ℚ) ≤ min 2.0 (0.15 * (ms.bids : ℚ)) := by positivity
      linarith
    cases hpr : ms.price with
    | none =>
      refine ⟨?_, ?_, ?_⟩ <;> simp [_apply_market_influence, hpr] <;>
        first
        | exact h1
        | exact hp
        | (refine ⟨by norm_num, ?_⟩; split_ifs <;> nlinarith [hdiv])
    | some price =>
      cases hpp : rs.prevPrice with
      | none =>
        refine ⟨?_, ?_, ?_⟩ <;> simp [_apply_market_influence, hpr, hpp] <;>
          first
          | exact h1
          | exact hp
          | (refine ⟨by norm_num, ?_⟩; split_ifs <;> nlinarith [hdiv])
      | some pp =>
        refine ⟨?_, ?_, ?_⟩ <;> simp [_apply_market_influence, hpr, hpp] <;>
          first
          | exact h1
          | exact hp
          | (refine ⟨by norm_num, ?_⟩; split_ifs <;> nlinarith [hdiv])

/-- `_fire_micro_event` preserves the lower bounds on hype, press and
listing pressure for any non-negative random draws. -/
theorem fire_micro_bounds (rs : ReleaseState) (roll r1 : ℚ)
    (hh : 0 ≤ rs.hype) (hp : 0 ≤ rs.press) (hl : 0.02 ≤ rs.listing_pressure)
    (hr1 : 0 ≤ r1) :
    0 ≤ (_fire_micro_event rs roll r1).hype ∧
      0 ≤ (_fire_micro_event rs roll r1).press ∧
      0.02 ≤ (_fire_micro_event rs roll r1).listing_pressure := by
  unfold _fire_micro_event
  split_ifs <;> refine ⟨?_, ?_, ?_⟩ <;> simp <;>
    first
    | linarith
    | exact ⟨by norm_num, by linarith⟩

/-- C1: one ticker body (decay, then market influence, then micro-event)
preserves `hype ≥ 0`, `press ≥ 0` and `listing_pressure ≥ 0.02` for every
market snapshot, positive time delta and random draws from `[0, 1)`. -/
theorem C1_ticker_preserves_bounds (rs : ReleaseState) (dt : ℚ)
    (market : Option MarketSnap) (roll r1 : ℚ)
    (hh : 0 ≤ rs.hype) (hp : 0 ≤ rs.press) (hl : 0.02 ≤ rs.listing_pressure)
    (hdt : 0 < dt) (hroll0 : 0 ≤ roll) (hroll1 : roll < 1)
    (hr10 : 0 ≤ r1) (hr11 : r1 < 1) :
    0 ≤ (ticker_step rs dt market roll r1).hype ∧
      0 ≤ (ticker_step rs dt market roll r1).press ∧
      0.02 ≤ (ticker_step rs dt market roll r1).listing_pressure := by
  have d := apply_decay_bounds rs dt
  have m := apply_market_bounds (_apply_decay rs dt) market d.1 d.2.1 d.2.2
  exact fire_micro_bounds _ roll r1 m.1 m.2.1 m.2.2 hr10

theorem C1_ticker_preserves_bounds_witness :
    (0 ≤ initial_release_state.hype ∧ 0 ≤ initial_release_state.press ∧
      0.02 ≤ initial_release_state.listing_pressure ∧
      (0 : ℚ) < 1 ∧ (0 : ℚ) ≤ 1/2 ∧ (1/2 : ℚ) < 1 ∧ (0 : ℚ) ≤ 1/4 ∧ (1/4 : ℚ) < 1) ∧
    (0 ≤ (ticker_step initial_release_state 1 (some ⟨3, 0, some 9⟩) (1/2) (1/4)).hype ∧
      0 ≤ (ticker_step initial_release_state 1 (some ⟨3, 0, some 9⟩) (1/2) (1/4)).press ∧
      0.02 ≤ (ticker_step initial_release_state 1 (some ⟨3, 0, some 9⟩) (1/2) (1/4)).listing_pressure) :=
  ⟨⟨by norm_num [initial_release_state], by norm_num [initial_release_state],
    by norm_num [initial_release_state], by norm_num, by norm_num, by norm_num,
    by norm_num, by norm_num⟩,
   C1_ticker_preserves_bounds initial_release_state 1 (some ⟨3, 0, some 9⟩)
     (1/2) (1/4)
     (by norm_num [initial_release_state]) (by norm_num [initial_release_state])
     (by norm_num [initial_release_state]) (by norm_num) (by norm_num)
     (by norm_num) (by norm_num) (by norm_num)⟩

/-- The Python `max(..., key=...)` fold returns a member of the list and a
maximal value (the first maximal entry, since replacement is strict). -/
theorem pyMaxPair_spec (x : String × ℚ) (xs : List (String × ℚ)) :
    pyMaxPair x xs ∈ x :: xs ∧ ∀ p ∈ x :: xs, p.2 ≤ (pyMaxPair x xs).2 := by
  induction xs generalizing x with
  | nil =>
    refine ⟨by simp [pyMaxPair], ?_⟩
    intro p hp
    simp only [List.mem_singleton] at hp
    rw [hp]
    exact le_refl _
  | cons y ys ih =>
    obtain ⟨hmem, hmax⟩ := ih (if y.2 > x.2 then y else x)
    have hstep : pyMaxPair x (y :: ys) = pyMaxPair (if y.2 > x.2 then y else x) ys := rfl
    rw [hstep]
    constructor
    · rcases List.mem_cons.mp hmem with h | h
      · rw [h]
        split_ifs
        · exact List.mem_cons_of_mem _ (List.mem_cons_self _ _)
        · exact List.mem_cons_self _ _
      · exact List.mem_cons_of_mem _ (List.mem_cons_of_mem _ h)
    · intro p hp
      have hzx : x.2 ≤ (if y.2 > x.2 then y else x).2 := by
        split_ifs with hgt
        · exact le_of_lt hgt
        · exact le_refl _
      have hzy : y.2 ≤ (if y.2 > x.2 then y else x).2 := by
        split_ifs with hgt
        · exact le_refl _
        · exact not_lt.mp hgt
      have hzmax := hmax _ (List.mem_cons_self _ _)
      rcases List.mem_cons.mp hp with h | h
      · rw [h]; exact le_trans hzx hzmax
      · rcases List.mem_cons.mp h with h2 | h2
        · rw [h2]; exact le_trans hzy hzmax
        · exact hmax _ (List.mem_cons_of_mem _ h2)

/-- The home-region resolution both generators perform:
`dominant_region(following) or "mainstream"` (Python `or`, so a `None`
result and an empty-string key are both replaced by `"mainstream"`). -/
def homeRegion (following : List (String × ℚ)) : String :=
  pyOrOptS (_dominant_region following) "mainstream"

/-- C8 counterexample: on the non-empty map with the single key `""` the
home region resolves to `"mainstream"`, which is not a key of the map at
all (Python `or` treats the empty-string arg-max key as falsy), so the home
region is NOT the arg-max of every non-empty following map. -/
theorem C8_counterexample :
    homeRegion [("", 1)] = "mainstream" ∧
      ∀ w : ℚ, ("mainstream", w) ∉ [(("" : String), (1 : ℚ))] := by
  refine ⟨rfl, ?_⟩
  intro w h
  simp at h

/-- C8 amended: the map `{a: 0.9, b: 0.1}` resolves home to `"a"`; for
every non-empty map `_dominant_region` returns a key of maximal weight
(the first such key) and the home region is that key unless it is the
empty string, in which case (and also on an empty or absent map) it falls
back to `"mainstream"`. -/
theorem C8_home_region_argmax :
    homeRegion [("a", 0.9), ("b", 0.1)] = "a" ∧
    (∀ l : List (String × ℚ), l ≠ [] →
      ∃ k w, _dominant_region l = some k ∧ (k, w) ∈ l ∧
        (∀ p ∈ l, p.2 ≤ w) ∧
        homeRegion l = (if k = "" then "mainstream" else k)) ∧
    homeRegion [] = "mainstream" := by
  have hab : pyMaxPair ("a", (0.9 : ℚ)) [("b", 0.1)] = ("a", 0.9) := by
    norm_num [pyMaxPair]
  refine ⟨by simp [homeRegion, pyOrOptS, _dominant_region, hab], ?_, rfl⟩
  intro l hl
  match l with
  | [] => exact absurd rfl hl
  | x :: xs =>
    obtain ⟨hmem, hmax⟩ := pyMaxPair_spec x xs
    refine ⟨(pyMaxPair x xs).1, (pyMaxPair x xs).2, rfl, ?_, hmax, rfl⟩
    simpa using hmem

theorem C8_home_region_argmax_witness :
    ([(("x" : String), (2 : ℚ)), ("y", 3), ("z", 3)] ≠ []) ∧
    (∃ k w, _dominant_region [(("x" : String), (2 : ℚ)), ("y", 3), ("z", 3)] = some k ∧
      (k, w) ∈ [(("x" : String), (2 : ℚ)), ("y", 3), ("z", 3)] ∧
      (∀ p ∈ [(("x" : String), (2 : ℚ)), ("y", 3), ("z", 3)], p.2 ≤ w) ∧
      homeRegion [(("x" : String), (2 : ℚ)), ("y", 3), ("z", 3)] =
        (if k = "" then "mainstream" else k)) :=
  ⟨by simp,
   (C8_home_region_argmax).2.1 [(("x" : String), (2 : ℚ)), ("y", 3), ("z", 3)] (by simp)⟩

/-- A one-beat demo track (a `critic_preview` beat, empty following). -/
def trackDemo : Track :=
  { artist := none, release := none, following := none,
    beats := some [{ event := some "critic_preview", delta := none }] }

/-- C4: the two region-anchor tables agree on `tiktok`, `collectors` and
`niche`, are swapped between `mainstream` and `gallery` (whose coordinates
really differ), and consequently the two generator copies emit different
coordinate sequences for some track. -/
theorem C4_swapped_anchor_tables :
    Server.REGION_ANCHORS "tiktok" = Geo.REGION_ANCHORS "tiktok" ∧
    Server.REGION_ANCHORS "collectors" = Geo.REGION_ANCHORS "collectors" ∧
    Server.REGION_ANCHORS "niche" = Geo.REGION_ANCHORS "niche" ∧
    Server.REGION_ANCHORS "mainstream" = Geo.REGION_ANCHORS "gallery" ∧
    Server.REGION_ANCHORS "gallery" = Geo.REGION_ANCHORS "mainstream" ∧
    Server.REGION_ANCHORS "mainstream" ≠ Server.REGION_ANCHORS "gallery" ∧
    (∃ track : Track,
      (creative_track_to_points track).map Feature.coordinates ≠
        (build_creative_points track 0).map Feature.coordinates) := by
  refine ⟨rfl, rfl, rfl, rfl, rfl, ?_, trackDemo, ?_⟩
  · intro h
    simp +decide [Server.REGION_ANCHORS, Prod.ext_iff] at h
    norm_num at h
  · intro h
    have h0 := congrArg List.head? h
    have hr : List.range 4 = [0, 1, 2, 3] := rfl
    simp +decide [trackDemo, creative_track_to_points, build_creative_points,
      creative_points_loop, build_points_loop, _interpolate, interpolate,
      _lerp, lerp, pyOrOptS, pyOrS, pyStrip, pyStripLeft, _dominant_region,
      dominant_region, Server.REGION_ANCHORS, Geo.REGION_ANCHORS,
      Server.EVENT_TO_REGION, Geo.EVENT_TO_REGION, mkServerFeature,
      mkGeoFeature, List.enum, hr, Prod.ext_iff] at h0
    norm_num at h0

/-- Erase the timestamp of a feature (for comparing runs up to clock). -/
def eraseTs (f : Feature) : Feature := { f with timestamp := 0 }

/-- The geo beat loop, with timestamps erased, does not depend on the
starting timestamp. -/
theorem build_points_loop_eraseTs (track : Track) (home : String)
    (beats : List Beat) :
    ∀ (lon lat : ℚ) (t1 t2 : ℕ),
      (build_points_loop track home beats lon lat t1).map eraseTs =
        (build_points_loop track home beats lon lat t2).map eraseTs := by
  induction beats with
  | nil => intro lon lat t1 t2; rfl
  | cons b rest ih =>
    intro lon lat t1 t2
    simp only [build_points_loop, List.map_append, List.map_map]
    congr 1
    exact ih _ _ _ _

/-- C2 counterexample: `build_creative_points` seeds its timestamps from
the wall clock, so two runs on the same track at different start times
yield different feature lists — the generator pair is not replayable
including timestamps. -/
theorem C2_counterexample :
    build_creative_points trackDemo 0 ≠ build_creative_points trackDemo 1 := by
  intro h
  have h0 := congrArg (fun l => l.map Feature.timestamp) h
  have hr : List.range 4 = [0, 1, 2, 3] := rfl
  simp +decide [trackDemo, build_creative_points, build_points_loop,
    interpolate, lerp, pyOrOptS, dominant_region, Geo.REGION_ANCHORS,
    Geo.EVENT_TO_REGION, mkGeoFeature, List.enum, hr] at h0

/-- C2 amended: `creative_track_to_points` is a pure function of the track
(two runs agree, timestamps included); `build_creative_points` is a pure
function of the track and its wall-clock start time, and with timestamps
erased its output is independent of that start time. -/
theorem C2_generator_determinism (track : Track) (t1 t2 : ℕ)
    (r1 r2 g1 g2 : List Feature)
    (h1 : r1 = creative_track_to_points track)
    (h2 : r2 = creative_track_to_points track)
    (hg1 : g1 = build_creative_points track t1)
    (hg2 : g2 = build_creative_points track t2) :
    r1 = r2 ∧ g1.map eraseTs = g2.map eraseTs := by
  subst h1 h2 hg1 hg2
  exact ⟨rfl, build_points_loop_eraseTs _ _ _ _ _ _ _⟩

theorem C2_generator_determinism_witness :
    creative_track_to_points trackDemo = creative_track_to_points trackDemo ∧
      (build_creative_points trackDemo 0).map eraseTs =
        (build_creative_points trackDemo 5).map eraseTs :=
  C2_generator_determinism trackDemo 0 5 _ _ _ _ rfl rfl rfl rfl

/-- C5: `GET /chat` returns at most 20 messages — the projections of the
rows with the 20 largest ids (every unreturned row has a strictly smaller
id than every returned one, assuming the primary-key ids are distinct),
ordered by id ascending; when the table has at most 20 rows all of them are
returned. -/
theorem C5_get_chat_last20 (table : List ChatRow)
    (hnd : (table.map ChatRow.id).Nodup) :
    (get_chat_rows table).length ≤ 20 ∧
    List.Sorted idLe (get_chat_rows table) ∧
    (∀ r ∈ get_chat_rows table, r ∈ table) ∧
    (∀ r ∈ get_chat_rows table, ∀ q ∈ table,
      q ∉ get_chat_rows table → q.id < r.id) ∧
    (table.length ≤ 20 → (get_chat_rows table).Perm table) ∧
    (20 ≤ table.length → (get_chat_rows table).length = 20) ∧
    get_chat table = (get_chat_rows table).map rowToMsg := by
  have hperm : (List.insertionSort idGe table).Perm table :=
    List.perm_insertionSort idGe table
  have hsorted : List.Sorted idGe (List.insertionSort idGe table) :=
    List.sorted_insertionSort idGe table
  have hrperm : (get_chat_rows table).Perm
      (List.take 20 (List.insertionSort idGe table)) :=
    List.perm_insertionSort idLe _
  refine ⟨?_, ?_, ?_, ?_, ?_, ?_, rfl⟩
  · rw [hrperm.length_eq, List.length_take]
    exact min_le_left _ _
  · exact List.sorted_insertionSort idLe _
  · intro r hr
    exact hperm.mem_iff.mp
      (List.mem_of_mem_take ((List.mem_insertionSort idLe).mp hr))
  · intro r hr q hq hqnot
    have hrt : r ∈ List.take 20 (List.insertionSort idGe table) :=
      (List.mem_insertionSort idLe).mp hr
    have hqs : q ∈ List.insertionSort idGe table := hperm.mem_iff.mpr hq
    have hqnt : q ∉ List.take 20 (List.insertionSort idGe table) := fun hc =>
      hqnot ((List.mem_insertionSort idLe).mpr hc)
    have hqd : q ∈ List.drop 20 (List.insertionSort idGe table) := by
      rw [← List.take_append_drop 20 (List.insertionSort idGe table),
        List.mem_append] at hqs
      exact hqs.resolve_left hqnt
    have hp : List.Pairwise idGe
        (List.take 20 (List.insertionSort idGe table) ++
          List.drop 20 (List.insertionSort idGe table)) := by
      rw [List.take_append_drop]
      exact hsorted
    have hle : q.id ≤ r.id := (List.pairwise_append.mp hp).2.2 r hrt q hqd
    have hpne : List.Pairwise (fun a b : ChatRow => a.id ≠ b.id)
        (List.take 20 (List.insertionSort idGe table) ++
          List.drop 20 (List.insertionSort idGe table)) := by
      rw [List.take_append_drop]
      exact List.pairwise_map.mp
        ((hperm.map ChatRow.id).nodup_iff.mpr hnd)
    have hne : r.id ≠ q.id := (List.pairwise_append.mp hpne).2.2 r hrt q hqd
    exact lt_of_le_of_ne hle hne.symm
  · intro hlen
    have htake : List.take 20 (List.insertionSort idGe table) =
        List.insertionSort idGe table :=
      List.take_of_length_le (by rw [hperm.length_eq]; exact hlen)
    exact (htake ▸ hrperm).trans hperm
  · intro hlen
    rw [hrperm.length_eq, List.length_take, List.length_insertionSort]
    exact min_eq_left hlen

/-- A small demo chat table with distinct ids, out of order. -/
def chatTableDemo : List ChatRow :=
  [{ id := 2, timestamp := "t2", user := "ann", chatString := "hi",
     entityType := "person" },
   { id := 1, timestamp := "t1", user := "bo", chatString := "yo",
     entityType := "person" },
   { id := 3, timestamp := "t3", user := "cy", chatString := "hey",
     entityType := "person" }]

theorem C5_get_chat_last20_witness :
    (chatTableDemo.map ChatRow.id).Nodup ∧
    ((get_chat_rows chatTableDemo).length ≤ 20 ∧
     List.Sorted idLe (get_chat_rows chatTableDemo) ∧
     (∀ r ∈ get_chat_rows chatTableDemo, r ∈ chatTableDemo) ∧
     (∀ r ∈ get_chat_rows chatTableDemo, ∀ q ∈ chatTableDemo,
        q ∉ get_chat_rows chatTableDemo → q.id < r.id) ∧
     (chatTableDemo.length ≤ 20 →
        (get_chat_rows chatTableDemo).Perm chatTableDemo) ∧
     (20 ≤ chatTableDemo.length → (get_chat_rows chatTableDemo).length = 20) ∧
     get_chat chatTableDemo = (get_chat_rows chatTableDemo).map rowToMsg) :=
  ⟨by decide, C5_get_chat_last20 chatTableDemo (by decide)⟩
